import Mathlib

/-
Verification of the MyGas coordinator (custom_components/mygas/coordinator.py).

The Python code is shallowly embedded: Python values flowing through the
coordinator are modelled by the inductive type `Value`, dictionaries as
association lists keyed by `Key` (strings or integers, the only key types
the coordinator stores), exceptions by `Except PyExc`, and the remote API
(aiomygas) by an environment of oracle responses `Env`.
-/

namespace MyGas

/-- Python dictionary keys used by the coordinator: strings and integers. -/
inductive Key where
  | kS (s : String)
  | kI (n : Int)
deriving DecidableEq, Repr

/-- Shallow embedding of the Python values the coordinator manipulates:
None, bools, ints, floats (as rationals), strings, lists, dicts
(association lists in insertion order) and datetime instants. -/
inductive Value where
  | vNone
  | vBool (b : Bool)
  | vInt (n : Int)
  | vFloat (q : Rat)
  | vStr (s : String)
  | vList (xs : List Value)
  | vDict (kvs : List (Key × Value))
  | vTime (t : Nat)
deriving Repr

/-- Python exceptions relevant to the coordinator: the remote layer's
`MyGasAuthError` and every other exception, carrying its message text. -/
inductive PyExc where
  | authError
  | generic (msg : String)
deriving DecidableEq, Repr

/-- Python truthiness (`bool(v)`). -/
def truthy : Value → Bool
  | .vNone => false
  | .vBool b => b
  | .vInt n => n != 0
  | .vFloat q => q != 0
  | .vStr s => s != ""
  | .vList xs => !xs.isEmpty
  | .vDict kvs => !kvs.isEmpty
  | .vTime _ => true

/-- Python identity test `v is None`. -/
def isNone : Value → Bool
  | .vNone => true
  | _ => false

/-- Python `isinstance(v, list)`. -/
def Value.isList : Value → Bool
  | .vList _ => true
  | _ => false

/-- Python `isinstance(v, dict)`. -/
def Value.isDict : Value → Bool
  | .vDict _ => true
  | _ => false

/-- Lookup in an association-list dictionary. -/
def dictLookup : List (Key × Value) → Key → Option Value
  | [], _ => none
  | (k, v) :: rest, k0 => if k = k0 then some v else dictLookup rest k0

/-- Python `d.get(k)` on a known dict body: the stored value, or None. -/
def lookupD (kvs : List (Key × Value)) (k : Key) : Value :=
  (dictLookup kvs k).getD .vNone

/-- Python `d[k] = v` on a dict body: replace in place, else append. -/
def dictSet : List (Key × Value) → Key → Value → List (Key × Value)
  | [], k0, v0 => [(k0, v0)]
  | (k, v) :: rest, k0, v0 =>
      if k = k0 then (k, v0) :: rest else (k, v) :: dictSet rest k0 v0

/-- Python `v.get(k)` where `v` may not be a dict: AttributeError then. -/
def mGet (v : Value) (k : String) : Except PyExc Value :=
  match v with
  | .vDict kvs => .ok (lookupD kvs (.kS k))
  | _ => .error (.generic "AttributeError: no attribute get")

/-- Python `v.get(k, d)` with an explicit default. -/
def mGetD (v : Value) (k : String) (d : Value) : Except PyExc Value :=
  match v with
  | .vDict kvs => .ok ((dictLookup kvs (.kS k)).getD d)
  | _ => .error (.generic "AttributeError: no attribute get")

/-- Python subscription `v[k]`: dict key lookup (KeyError when absent) or
list indexing by a non-negative integer (IndexError when out of range).
The coordinator only ever indexes lists with indices produced by `range`,
so negative-index wraparound is not modelled. -/
def getItemV (v : Value) (k : Value) : Except PyExc Value :=
  match v with
  | .vDict kvs =>
      match k with
      | .vStr s =>
          match dictLookup kvs (.kS s) with
          | some x => .ok x
          | none => .error (.generic "KeyError")
      | .vInt n =>
          match dictLookup kvs (.kI n) with
          | some x => .ok x
          | none => .error (.generic "KeyError")
      | _ => .error (.generic "KeyError")
  | .vList xs =>
      match k with
      | .vInt n =>
          if h : 0 ≤ n ∧ n.toNat < xs.length then .ok (xs.get ⟨n.toNat, h.2⟩)
          else .error (.generic "IndexError")
      | _ => .error (.generic "TypeError: list indices must be integers")
  | _ => .error (.generic "TypeError: object is not subscriptable")

/-- Python `len(v)` for the sized builtins; TypeError otherwise. -/
def pyLen (v : Value) : Except PyExc Nat :=
  match v with
  | .vList xs => .ok xs.length
  | .vDict kvs => .ok kvs.length
  | .vStr s => .ok s.length
  | _ => .error (.generic "TypeError: object has no len")

/-- View of a dictionary key as the Python value it is. -/
def keyVal : Key → Value
  | .kS s => .vStr s
  | .kI n => .vInt n

/-- Python iteration `for x in v`: list elements, dict keys, or string
characters; TypeError otherwise. -/
def pyIter (v : Value) : Except PyExc (List Value) :=
  match v with
  | .vList xs => .ok xs
  | .vDict kvs => .ok (kvs.map fun kv => keyVal kv.1)
  | .vStr s => .ok (s.data.map fun c => .vStr (String.mk [c]))
  | _ => .error (.generic "TypeError: object is not iterable")

/-- Value of a decimal digit string, or none when a non-digit occurs. -/
def natOfDigits (cs : List Char) : Option Nat :=
  if cs.all Char.isDigit then
    some (cs.foldl (fun a c => a * 10 + (c.toNat - 48)) 0)
  else none

/-- Parse of a decimal integer literal, as Python `int(str)` accepts
(optional sign then digits; the broader forms Python tolerates, such as
surrounding whitespace or underscores, are not modelled). -/
def parseIntStr (s : String) : Option Int :=
  match s.data with
  | [] => none
  | c :: rest =>
      if c = '-' then (natOfDigits rest).map fun n => -(n : Int)
      else if c = '+' then (natOfDigits rest).map fun n => (n : Int)
      else (natOfDigits (c :: rest)).map fun n => (n : Int)

/-- Parse of an unsigned decimal literal with at most one point. -/
def parseUnsignedRat (cs : List Char) : Option Rat :=
  match cs.splitOn '.' with
  | [ipart] => (natOfDigits ipart).map fun n => (n : Rat)
  | [ipart, fpart] =>
      if ipart.isEmpty && fpart.isEmpty then none
      else
        match natOfDigits ipart, natOfDigits fpart with
        | some i, some f =>
            some ((i : Rat) + (f : Rat) / ((10 : Rat) ^ fpart.length))
        | some i, none => if fpart.isEmpty then some ((i : Rat)) else none
        | none, some f =>
            if ipart.isEmpty then some ((f : Rat) / ((10 : Rat) ^ fpart.length))
            else none
        | none, none => none
  | _ => none

/-- Parse of a decimal float literal, as Python `float(str)` accepts
(sign, digits, optional point; exponents and special values are not
modelled — unmodelled forms conservatively fail to parse). -/
def parseRatStr (s : String) : Option Rat :=
  match s.data with
  | [] => none
  | c :: rest =>
      if c = '-' then (parseUnsignedRat rest).map fun q => -q
      else if c = '+' then parseUnsignedRat rest
      else parseUnsignedRat (c :: rest)

/-- Python `float(v)`: numeric conversion, string parse, or a
TypeError/ValueError failure (returned as `none`). -/
def pyFloat (v : Value) : Option Rat :=
  match v with
  | .vBool b => some (if b then 1 else 0)
  | .vInt n => some (n : Rat)
  | .vFloat q => some q
  | .vStr s => parseRatStr s
  | _ => none

/-- Python `int(v)`: truncating numeric conversion or string parse;
raises ValueError/TypeError (as `Except.error`) on failure. -/
def pyInt (v : Value) : Except PyExc Int :=
  match v with
  | .vBool b => .ok (if b then 1 else 0)
  | .vInt n => .ok n
  | .vFloat q => .ok (q.num.tdiv (q.den : Int))
  | .vStr s =>
      match parseIntStr s with
      | some n => .ok n
      | none => .error (.generic "ValueError: invalid literal for int")
  | _ => .error (.generic "TypeError: not convertible to int")

/-! Key constants. `const.py` is not under `src/`; the concrete spellings
below are stand-ins — no claim depends on the spelling, only on the keys
being the fixed distinct strings the coordinator uses. -/

/-- Coordinator data key for the cached raw accounts payload. -/
def CONF_ACCOUNTS : String := "accounts"

/-- Coordinator data key for the normalized per-account info map. -/
def CONF_INFO : String := "info"

/-- Sub-account key holding the account number. -/
def CONF_ACCOUNT : String := "account"

/-- Coordinator data key for the last update timestamp. -/
def ATTR_LAST_UPDATE_TIME : String := "last_update_time"

/-- Coordinator data key for the ELS/LSPU shape flag. -/
def ATTR_IS_ELS : String := "is_els"

/-- Coordinator data key for the extracted balance. -/
def ATTR_BALANCE : String := "balance_attr"

/-- Per-account key of the nested ELS group record. -/
def ATTR_ELS : String := "els"

/-- ELS record key of the joint account number. -/
def ATTR_JNT_ACCOUNT_NUM : String := "jntAccountNum"

/-- ELS detail key of the nested LSPU info group list. -/
def ATTR_LSPU_INFO_GROUP : String := "lspuInfoGroup"

/-- Sub-account key of the counters list. -/
def ATTR_COUNTERS : String := "counters"

/-- Counter key of the equipment UUID. -/
def ATTR_UUID : String := "uuid"

/-- Sub-account key of its linked account id. -/
def ATTR_ACCOUNT_ID : String := "account_id"

/-- Integration domain name used in device identifiers. -/
def DOMAIN_NAME : String := "mygas"

/-- Python `a or b`: `a` when truthy, else `b`. -/
def pyOr (a b : Value) : Value := if truthy a then a else b

/-- Embedding of `MyGasCoordinator._get_lspu_list`: on a dict, the
truthiness-chained fallback `lspu or lspuGroup or lspuInfoGroup or []`,
kept only when it is a list; `[]` on non-dict input. -/
def get_lspu_list (accounts_info : Value) : List Value :=
  match accounts_info with
  | .vDict kvs =>
      let lspu_list :=
        pyOr (pyOr (pyOr (lookupD kvs (.kS "lspu")) (lookupD kvs (.kS "lspuGroup")))
            (lookupD kvs (.kS "lspuInfoGroup")))
          (.vList [])
      match lspu_list with
      | .vList xs => xs
      | _ => []
  | _ => []

/-- Written from the spec claim's words, for comparison with
`get_lspu_list`: inspect `lspu`, `lspuGroup`, `lspuInfoGroup` in that
fixed order, the first non-null (present, not None) value winning; a
resolved non-list value counts as the empty list. -/
def get_lspu_list_first_nonnull (accounts_info : Value) : List Value :=
  match accounts_info with
  | .vDict kvs =>
      let firstNonNull :=
        match dictLookup kvs (.kS "lspu") with
        | some v => if isNone v then none else some v
        | none => none
      let firstNonNull :=
        match firstNonNull with
        | some v => some v
        | none =>
            match dictLookup kvs (.kS "lspuGroup") with
            | some v => if isNone v then none else some v
            | none => none
      let firstNonNull :=
        match firstNonNull with
        | some v => some v
        | none =>
            match dictLookup kvs (.kS "lspuInfoGroup") with
            | some v => if isNone v then none else some v
            | none => none
      match firstNonNull with
      | some (.vList xs) => xs
      | _ => []
  | _ => []

/-- Written in the amended claim's words, for comparison with
`get_lspu_list`: same fixed key order, but the first TRUTHY value wins
(a present-but-falsy value, such as an empty list, falls through). -/
def get_lspu_list_first_truthy (accounts_info : Value) : List Value :=
  match accounts_info with
  | .vDict kvs =>
      let chosen :=
        if truthy (lookupD kvs (.kS "lspu")) then lookupD kvs (.kS "lspu")
        else if truthy (lookupD kvs (.kS "lspuGroup")) then lookupD kvs (.kS "lspuGroup")
        else if truthy (lookupD kvs (.kS "lspuInfoGroup")) then
          lookupD kvs (.kS "lspuInfoGroup")
        else .vList []
      match chosen with
      | .vList xs => xs
      | _ => []
  | _ => []

/-- Outcome of one scan step of `_extract_balance_from_info`: a balance
found (function returns it), a float-conversion failure (the outer
try/except returns None for the whole call), or no match (scan goes on). -/
inductive ScanR where
  | found (q : Rat)
  | failed
  | noMatch
deriving DecidableEq, Repr

/-- Two-tier balance check of one mapping, as in
`_extract_balance_from_info`: `services[0].balance` when `services` is a
non-empty list whose head is a mapping with a non-null balance, else the
mapping's own non-null `balance`; conversion failures are `failed`. -/
def twoTierBalance (kvs : List (Key × Value)) : ScanR :=
  let fromServices : Option Value :=
    match lookupD kvs (.kS "services") with
    | .vList (s0 :: _) =>
        match s0 with
        | .vDict skvs =>
            let b := lookupD skvs (.kS "balance")
            if isNone b then none else some b
        | _ => none
    | _ => none
  match fromServices with
  | some b =>
      match pyFloat b with
      | some q => .found q
      | none => .failed
  | none =>
      let b := lookupD kvs (.kS "balance")
      if isNone b then .noMatch
      else
        match pyFloat b with
        | some q => .found q
        | none => .failed

/-- Scan of a list-valued entry of the info dict: non-mapping elements
are skipped; the first found/failed result stops the scan. -/
def scanBalanceList : List Value → ScanR
  | [] => .noMatch
  | x :: rest =>
      match x with
      | .vDict kvs =>
          match twoTierBalance kvs with
          | .found q => .found q
          | .failed => .failed
          | .noMatch => scanBalanceList rest
      | _ => scanBalanceList rest

/-- Scan over the entries of the info dict, as the loop of
`_extract_balance_from_info`: falsy entries are skipped, list entries are
scanned element-wise, dict entries get the two-tier check directly, and
any other entry is skipped. -/
def scanBalanceEntries : List (Key × Value) → ScanR
  | [] => .noMatch
  | (_, items) :: rest =>
      if truthy items then
        let r :=
          match items with
          | .vList xs => scanBalanceList xs
          | .vDict kvs => twoTierBalance kvs
          | _ => ScanR.noMatch
        match r with
        | .found q => .found q
        | .failed => .failed
        | .noMatch => scanBalanceEntries rest
      else scanBalanceEntries rest

/-- Embedding of `MyGasCoordinator._extract_balance_from_info`: None on
non-mapping input, on a scan with no match, and on any float-conversion
failure (the surrounding try/except); the first balance found otherwise. -/
def extract_balance_from_info (info : Value) : Option Rat :=
  match info with
  | .vDict kvs =>
      match scanBalanceEntries kvs with
      | .found q => some q
      | _ => none
  | _ => none

/-- Oracle environment for one poll: the remote API's responses (each
call may raise an auth or generic error), the current time, the random
draws consumed by `randrange`, and the configured update-hour window
(`UPDATE_HOUR_BEGIN` / `UPDATE_HOUR_END` from the repository's
`const.py`, absent from `src/`, kept symbolic). -/
structure Env where
  getAccountsR : Except PyExc Value
  getElsInfoR : Int → Except PyExc Value
  getLspuInfoR : Int → Except PyExc Value
  nowT : Nat
  g1 : Nat
  g2 : Nat
  g3 : Nat
  hourBegin : Nat
  hourEnd : Nat

/-- Python `randrange(a, b)` driven by a draw `g`: some value in
`[a, b)` whenever `a < b`. The single-argument form `randrange(n)` is
`randrange 0 n`. -/
def randrange (a b g : Nat) : Nat := a + g % (b - a)

/-- Modelled from the spec: `get_update_interval` lives in the
repository's `helpers.py`, which is not under `src/`. Per the spec the
next poll interval is determined by the randomized time-of-day
(hour, minute, second), so the interval is modelled as that triple. -/
structure Interval where
  hour : Nat
  minute : Nat
  second : Nat
deriving DecidableEq, Repr

/-- Modelled from the spec: the interval determined by the randomized
time-of-day handed to it by the coordinator. -/
def get_update_interval (h m s : Nat) : Interval := ⟨h, m, s⟩

/-- Mutable coordinator state the poll reads and writes: `self.data`
(always a dict — modelled as its body), the one-shot force flag, the
auto-update configuration flag, and the scheduler's update interval. -/
structure CoordState where
  data : List (Key × Value)
  forceNextUpdate : Bool
  autoUpdate : Bool
  updateInterval : Option Interval

/-- Loop body of `retrieve_els_accounts_info`: per item derive the id
from `els.id` (`item.get("els", {}).get("id")`), skip falsy ids,
convert with `int(...)` (which raises on a truthy non-numeric id), issue
the remote ELS-info call, insert truthy results, skip falsy ones. -/
def elsLoop (env : Env) : List Value → List (Key × Value) → Except PyExc (List (Key × Value))
  | [], acc => .ok acc
  | item :: rest, acc =>
      match mGetD item ATTR_ELS (.vDict []) with
      | .error e => .error e
      | .ok elsField =>
          match mGet elsField "id" with
          | .error e => .error e
          | .ok idv =>
              if truthy idv then
                match pyInt idv with
                | .error e => .error e
                | .ok n =>
                    match env.getElsInfoR n with
                    | .error e => .error e
                    | .ok info =>
                        if truthy info then elsLoop env rest (dictSet acc (.kI n) info)
                        else elsLoop env rest acc
              else elsLoop env rest acc

/-- Embedding of `MyGasCoordinator.retrieve_els_accounts_info`:
iterate `accounts_info.get("elsGroup") or []` and assemble the dict of
per-ELS detail keyed by integer id. -/
def retrieve_els_accounts_info (env : Env) (accounts_info : Value) :
    Except PyExc Value :=
  match mGet accounts_info "elsGroup" with
  | .error e => .error e
  | .ok g =>
      let els_list := pyOr g (.vList [])
      match pyIter els_list with
      | .error e => .error e
      | .ok items =>
          match elsLoop env items [] with
          | .error e => .error e
          | .ok kvs => .ok (.vDict kvs)

/-- Loop body of `retrieve_lspu_accounts_info`: per item take
`item.get("id")`, skip falsy ids, convert with `int(...)`, issue the
remote LSPU-info call, store truthy results (a non-list result wrapped
into a one-element list), skip falsy results. -/
def lspuLoop (env : Env) : List Value → List (Key × Value) → Except PyExc (List (Key × Value))
  | [], acc => .ok acc
  | item :: rest, acc =>
      match mGet item "id" with
      | .error e => .error e
      | .ok idv =>
          if truthy idv then
            match pyInt idv with
            | .error e => .error e
            | .ok n =>
                match env.getLspuInfoR n with
                | .error e => .error e
                | .ok info =>
                    if truthy info then
                      if info.isList then lspuLoop env rest (dictSet acc (.kI n) info)
                      else lspuLoop env rest (dictSet acc (.kI n) (.vList [info]))
                    else lspuLoop env rest acc
          else lspuLoop env rest acc

/-- Embedding of `MyGasCoordinator.retrieve_lspu_accounts_info`:
iterate `_get_lspu_list(accounts_info)` and assemble the dict of
per-LSPU detail lists keyed by integer id. -/
def retrieve_lspu_accounts_info (env : Env) (accounts_info : Value) :
    Except PyExc Value :=
  match lspuLoop env (get_lspu_list accounts_info) [] with
  | .error e => .error e
  | .ok kvs => .ok (.vDict kvs)

/-- Which branch of `_async_update_data` produced the result. -/
inductive BPath where
  | earlyP
  | elsP
  | lspuP
  | emptyP
  | noneP
deriving DecidableEq, Repr

/-- Inline expression `accounts_info.get("elsGroup") if isinstance(accounts_info, dict) else None`
of `_async_update_data`. -/
def els_group_of (ai : Value) : Value :=
  match ai with
  | .vDict kvs => lookupD kvs (.kS "elsGroup")
  | _ => .vNone

/-- New-data dict holding only the update timestamp. -/
def newDataBase (nowT : Nat) : List (Key × Value) :=
  [(.kS ATTR_LAST_UPDATE_TIME, .vTime nowT)]

/-- Balance step shared by the ELS and LSPU branches of
`_async_update_data`: extract a balance from `new_data.get(CONF_INFO)`
and, when one is found, store its absolute value. -/
def balance_step (nd : List (Key × Value)) : List (Key × Value) :=
  match extract_balance_from_info (lookupD nd (.kS CONF_INFO)) with
  | some q => dictSet nd (.kS ATTR_BALANCE) (.vFloat |q|)
  | none => nd

/-- ELS-branch result of `_async_update_data`: timestamp, raw accounts,
`is_els = True`, the fetched info, and the absolute balance when the
extractor finds one. -/
def els_branch_data (nowT : Nat) (ai info : Value) : List (Key × Value) :=
  balance_step (dictSet (dictSet (dictSet (newDataBase nowT) (.kS CONF_ACCOUNTS) ai)
    (.kS ATTR_IS_ELS) (.vBool true)) (.kS CONF_INFO) info)

/-- LSPU-branch result of `_async_update_data`: as the ELS branch with
`is_els = False`. -/
def lspu_branch_data (nowT : Nat) (ai info : Value) : List (Key × Value) :=
  balance_step (dictSet (dictSet (dictSet (newDataBase nowT) (.kS CONF_ACCOUNTS) ai)
    (.kS ATTR_IS_ELS) (.vBool false)) (.kS CONF_INFO) info)

/-- EMPTY-branch result of `_async_update_data`: timestamp, raw
accounts, empty info and `is_els = False`. -/
def empty_branch_data (nowT : Nat) (ai : Value) : List (Key × Value) :=
  dictSet (dictSet (dictSet (newDataBase nowT) (.kS CONF_ACCOUNTS) ai)
      (.kS CONF_INFO) (.vDict [])) (.kS ATTR_IS_ELS) (.vBool false)

/-- Branch dispatch and per-branch work of `_async_update_data` once an
accounts payload (cached or fresh) is in hand: ELS when `elsGroup` is
truthy, else LSPU when the resolved LSPU list is non-empty, else the
EMPTY branch. -/
def poll_rest (env : Env) (ai : Value) : Except PyExc (List (Key × Value) × BPath) :=
  let els_group := els_group_of ai
  let lspu_list := get_lspu_list ai
  if truthy els_group then
    match retrieve_els_accounts_info env ai with
    | .error e => .error e
    | .ok info => .ok (els_branch_data env.nowT ai info, .elsP)
  else if !lspu_list.isEmpty then
    match retrieve_lspu_accounts_info env ai with
    | .error e => .error e
    | .ok info => .ok (lspu_branch_data env.nowT ai info, .lspuP)
  else .ok (empty_branch_data env.nowT ai, .emptyP)

/-- Condition under which `_async_update_data` issues the remote
get-accounts call: cached value is None (absent) or the force flag. -/
def fetch_condition (st : CoordState) : Bool :=
  isNone (lookupD st.data (.kS CONF_ACCOUNTS)) || st.forceNextUpdate

/-- Try-block of `_async_update_data`: reuse or fetch the raw accounts
payload, short-circuit on a falsy fresh fetch (timestamp-only result),
then run the branch work. -/
def poll_body (st : CoordState) (env : Env) : Except PyExc (List (Key × Value) × BPath) :=
  let cached := lookupD st.data (.kS CONF_ACCOUNTS)
  if isNone cached || st.forceNextUpdate then
    match env.getAccountsR with
    | .error e => .error e
    | .ok ai =>
        if truthy ai then poll_rest env ai
        else .ok (newDataBase env.nowT, .earlyP)
  else poll_rest env cached

/-- Outcome a poll hands to the host platform: a data dict, or one of
the two failure conditions (`ConfigEntryAuthFailed` / `UpdateFailed`). -/
inductive PollOutcome where
  | ok (d : List (Key × Value))
  | authFailed (msg : String)
  | updateFailed (msg : String)
deriving Repr

/-- Exception mapping of `_async_update_data`: `MyGasAuthError` becomes
`ConfigEntryAuthFailed("Incorrect Login or Password")`, anything else
becomes `UpdateFailed` carrying the original error text. -/
def mapExc : PyExc → PollOutcome
  | .authError => .authFailed "Incorrect Login or Password"
  | .generic m => .updateFailed ("Error communicating with API: " ++ m)

/-- Finally-block of `_async_update_data`: recompute the update interval
from fresh random draws when auto-update is on, disable it otherwise. -/
def nextInterval (st : CoordState) (env : Env) : Option Interval :=
  if st.autoUpdate then
    some (get_update_interval (randrange env.hourBegin env.hourEnd env.g1)
      (randrange 0 60 env.g2) (randrange 0 60 env.g3))
  else none

/-- Observable result of one poll: the outcome, the coordinator state
after the finally-block (and the host storing a successful result into
`self.data`), whether the remote get-accounts call was issued, and the
branch taken on success. -/
structure PollTrace where
  outcome : PollOutcome
  newState : CoordState
  fetched : Bool
  path : BPath

/-- Embedding of one full run of `MyGasCoordinator._async_update_data`,
with the host platform's handling around it: a successful return value
becomes the coordinator's data, a raised failure leaves it unchanged;
the finally-block always clears the force flag and recomputes the
interval. -/
def async_update_data (st : CoordState) (env : Env) : PollTrace :=
  match poll_body st env with
  | .ok (d, p) =>
      { outcome := .ok d
        newState := ⟨d, false, st.autoUpdate, nextInterval st env⟩
        fetched := fetch_condition st
        path := p }
  | .error e =>
      { outcome := mapExc e
        newState := ⟨st.data, false, st.autoUpdate, nextInterval st env⟩
        fetched := fetch_condition st
        path := .noneP }

/-- Python string form of a value, used only inside the stable device
identifier; any deterministic injective-enough rendering serves, since
claims depend only on determinism of the derivation. -/
def valueStr : Value → String
  | .vNone => "None"
  | .vBool b => if b then "True" else "False"
  | .vInt n => toString n
  | .vFloat q => toString q.num ++ "/" ++ toString q.den
  | .vStr s => s
  | .vList _ => "[list]"
  | .vDict _ => "[dict]"
  | .vTime t => toString t

/-- Modelled from the spec: `make_device_id` lives in the repository's
`helpers.py`, which is not under `src/`; the spec calls the stable
identifier "a deterministic token derived from account number + counter
UUID". -/
def make_device_id (account_number counter_uuid : Value) : String :=
  valueStr account_number ++ "_" ++ valueStr counter_uuid

/-- Embedding of `MyGasCoordinator.get_accounts`:
`self.data.get(CONF_INFO, {})`. -/
def get_accounts (st : CoordState) : Value :=
  (dictLookup st.data (.kS CONF_INFO)).getD (.vDict [])

/-- Embedding of `MyGasCoordinator.is_els`:
`self.data.get(ATTR_IS_ELS, False)`, used via truthiness. -/
def is_els (st : CoordState) : Value :=
  (dictLookup st.data (.kS ATTR_IS_ELS)).getD (.vBool false)

/-- Embedding of `MyGasCoordinator.get_account_number`: index the
normalized info by account id, then read the joint account number from
the nested ELS record (ELS shape) or the indexed sub-account's
`account` field (LSPU shape). -/
def get_account_number (st : CoordState) (account_id : Value) (lspu_account_id : Nat) :
    Except PyExc Value :=
  match getItemV (get_accounts st) account_id with
  | .error e => .error e
  | .ok account =>
      if truthy (is_els st) then
        match mGetD account ATTR_ELS (.vDict []) with
        | .error e => .error e
        | .ok e => mGet e ATTR_JNT_ACCOUNT_NUM
      else
        match getItemV account (.vInt lspu_account_id) with
        | .error e => .error e
        | .ok one => mGet one CONF_ACCOUNT

/-- Embedding of `MyGasCoordinator.get_lspu_accounts`: the nested
`lspuInfoGroup` list (ELS shape) or the account detail itself, wrapped
when it is not a list (LSPU shape). -/
def get_lspu_accounts (st : CoordState) (account_id : Value) : Except PyExc Value :=
  match getItemV (get_accounts st) account_id with
  | .error e => .error e
  | .ok d =>
      if truthy (is_els st) then getItemV d (.vStr ATTR_LSPU_INFO_GROUP)
      else .ok (if d.isList then d else .vList [d])

/-- Embedding of `MyGasCoordinator.get_counters`:
`get_lspu_accounts(account_id)[lspu_account_id].get(ATTR_COUNTERS, [])`. -/
def get_counters (st : CoordState) (account_id : Value) (lspu_account_id : Nat) :
    Except PyExc Value :=
  match get_lspu_accounts st account_id with
  | .error e => .error e
  | .ok accs =>
      match getItemV accs (.vInt lspu_account_id) with
      | .error e => .error e
      | .ok one => mGetD one ATTR_COUNTERS (.vList [])

/-- Counter UUID read as the device-lookup loop reads it:
`get_counters(account_id, lspu_account_id)[counter_id].get(ATTR_UUID)`. -/
def counter_uuid_at (st : CoordState) (account_id : Value) (lspu_account_id counter_id : Nat) :
    Except PyExc Value :=
  match get_counters st account_id lspu_account_id with
  | .error e => .error e
  | .ok counters =>
      match getItemV counters (.vInt counter_id) with
      | .error e => .error e
      | .ok cv => mGet cv ATTR_UUID

/-- Python set equality `identifiers == \x7b pair \x7d` between a device's
identifier set (modelled as its element list) and a singleton. -/
def identSetEq (ids : List (String × String)) (p : String × String) : Bool :=
  !ids.isEmpty && ids.all fun x => x = p

/-- Innermost loop of `find_account_by_device_id`: scan counter indices,
recompute each candidate's stable identifier and compare with the
device's identifier set; a falsy counter UUID fails the assertion. -/
def find_inner (st : CoordState) (dev : List (String × String)) (account_id : Value)
    (lspu_account_id : Nat) : List Nat → Except PyExc (Option (Value × Nat × Nat))
  | [] => .ok none
  | c :: rest =>
      match get_account_number st account_id lspu_account_id with
      | .error e => .error e
      | .ok num =>
          match counter_uuid_at st account_id lspu_account_id c with
          | .error e => .error e
          | .ok uuid =>
              if truthy uuid then
                if identSetEq dev (DOMAIN_NAME, make_device_id num uuid) then
                  .ok (some (account_id, lspu_account_id, c))
                else find_inner st dev account_id lspu_account_id rest
              else .error (.generic "AssertionError")

/-- Middle loop of `find_account_by_device_id`: scan sub-account
indices, driving the inner loop over `range(len(get_counters(...)))`. -/
def find_mid (st : CoordState) (dev : List (String × String)) (account_id : Value) :
    List Nat → Except PyExc (Option (Value × Nat × Nat))
  | [] => .ok none
  | l :: rest =>
      match get_counters st account_id l with
      | .error e => .error e
      | .ok counters =>
          match pyLen counters with
          | .error e => .error e
          | .ok n =>
              match find_inner st dev account_id l (List.range n) with
              | .error e => .error e
              | .ok (some t) => .ok (some t)
              | .ok none => find_mid st dev account_id rest

/-- Outer loop of `find_account_by_device_id`: scan account ids,
driving the middle loop over `range(len(get_lspu_accounts(...)))`. -/
def find_outer (st : CoordState) (dev : List (String × String)) :
    List Value → Except PyExc (Option (Value × Nat × Nat))
  | [] => .ok none
  | a :: rest =>
      match get_lspu_accounts st a with
      | .error e => .error e
      | .ok accs =>
          match pyLen accs with
          | .error e => .error e
          | .ok n =>
              match find_mid st dev a (List.range n) with
              | .error e => .error e
              | .ok (some t) => .ok (some t)
              | .ok none => find_outer st dev rest

/-- Embedding of `MyGasCoordinator.find_account_by_device_id`: the
device registry lookup is the `device` argument (`none` models a
missing device record, failing the `assert device`); on a hit the
resolved (account id, sub-account index, counter index) triple, on an
exhausted scan `none` (Python's `(None, None, None)`). -/
def find_account_by_device_id (st : CoordState)
    (device : Option (List (String × String))) :
    Except PyExc (Option (Value × Nat × Nat)) :=
  match device with
  | none => .error (.generic "AssertionError")
  | some dev =>
      match pyIter (get_accounts st) with
      | .error e => .error e
      | .ok ks => find_outer st dev ks

/-- Arguments of the remote `async_indication_send` call issued by
`async_send_readings`. -/
structure SubmitCall where
  lspuId : Value
  equipmentUuid : Value
  value : Rat
  elsId : Option Value
deriving Repr

/-- Sub-account's own linked account id as `async_send_readings` reads
it: `get_lspu_accounts(account_id)[lspu_account_id][ATTR_ACCOUNT_ID]`. -/
def linked_account_id (st : CoordState) (account_id : Value) (lspu_account_id : Nat) :
    Except PyExc Value :=
  match get_lspu_accounts st account_id with
  | .error e => .error e
  | .ok accs =>
      match getItemV accs (.vInt lspu_account_id) with
      | .error e => .error e
      | .ok acc => getItemV acc (.vStr ATTR_ACCOUNT_ID)

/-- Counter UUID as `async_send_readings` reads it (by subscription,
unlike the lookup loop's `.get`):
`get_counters(account_id, lspu_account_id)[counter_id][ATTR_UUID]`. -/
def counter_uuid_item (st : CoordState) (account_id : Value) (lspu_account_id counter_id : Nat) :
    Except PyExc Value :=
  match get_counters st account_id lspu_account_id with
  | .error e => .error e
  | .ok counters =>
      match getItemV counters (.vInt counter_id) with
      | .error e => .error e
      | .ok cv => getItemV cv (.vStr ATTR_UUID)

/-- Embedding of `MyGasCoordinator.async_send_readings`: resolve the
device to its triple (the `assert account_id/counter_id/lspu_account_id
is not None` chain fails on an unresolved device — note `assert device`
itself always passes, a 3-tuple of Nones being truthy), then gather the
linked account id, ELS id (the account id exactly when the shape is
ELS) and counter UUID, asserting truthiness along the way, and issue
the remote send call with them. -/
def async_send_readings (st : CoordState)
    (device : Option (List (String × String))) (value : Rat) :
    Except PyExc SubmitCall :=
  match find_account_by_device_id st device with
  | .error e => .error e
  | .ok none => .error (.generic "AssertionError")
  | .ok (some (account_id, lspu_account_id, counter_id)) =>
      match get_lspu_accounts st account_id with
      | .error e => .error e
      | .ok lspu_accounts =>
          if truthy lspu_accounts then
            match getItemV lspu_accounts (.vInt lspu_account_id) with
            | .error e => .error e
            | .ok lspu_account =>
                if truthy lspu_account then
                  match getItemV lspu_account (.vStr ATTR_ACCOUNT_ID) with
                  | .error e => .error e
                  | .ok lspu_id =>
                      let els_id := if truthy (is_els st) then some account_id else none
                      match get_counters st account_id lspu_account_id with
                      | .error e => .error e
                      | .ok counters =>
                          if truthy counters then
                            match getItemV counters (.vInt counter_id) with
                            | .error e => .error e
                            | .ok cv =>
                                match getItemV cv (.vStr ATTR_UUID) with
                                | .error e => .error e
                                | .ok uuid =>
                                    if truthy uuid then
                                      .ok ⟨lspu_id, uuid, value, els_id⟩
                                    else .error (.generic "AssertionError")
                          else .error (.generic "AssertionError")
                else .error (.generic "AssertionError")
          else .error (.generic "AssertionError")

/-! Concrete fixtures used by witnesses and counterexamples. -/

/-- Environment whose remote calls all succeed with truthy payloads. -/
def envOk : Env :=
  ⟨.ok .vNone, fun _ => .ok (.vDict [(.kS "x", .vInt 1)]),
    fun _ => .ok (.vList [.vDict []]), 0, 0, 0, 0, 8, 20⟩

/-- Environment whose get-accounts call raises the remote auth error. -/
def envAuthErr : Env :=
  ⟨.error .authError, fun _ => .ok (.vDict [(.kS "x", .vInt 1)]),
    fun _ => .ok (.vList [.vDict []]), 0, 0, 0, 0, 8, 20⟩

/-- Freshly initialised coordinator state (empty data, no force). -/
def st0 : CoordState := ⟨[], false, false, none⟩

/-- Initial state with the force flag set and auto-update enabled. -/
def st0auto : CoordState := ⟨[], true, true, none⟩

/-- C4 counterexample input: `lspu` present with an empty (hence falsy
but non-null) list, `lspuGroup` present with a non-empty list. -/
def c4Raw : Value :=
  .vDict [(.kS "lspu", .vList []), (.kS "lspuGroup", .vList [.vDict []])]

/-- C7 counterexample input: an ELS group item whose nested `els.id` is
truthy but not convertible to integer. -/
def c7RawBadId : Value :=
  .vDict [(.kS "elsGroup",
    .vList [.vDict [(.kS ATTR_ELS, .vDict [(.kS "id", .vStr "abc")])]])]

/-- ELS group item with no `els.id` at all (skipped by the fetcher). -/
def c7ItemNoId : Value := .vDict [(.kS ATTR_ELS, .vDict [])]

/-- C7 counterexample input for the LSPU fetcher: an `lspu` list item
whose `id` is truthy but not convertible to integer. -/
def c7RawBadIdLspu : Value :=
  .vDict [(.kS "lspu", .vList [.vDict [(.kS "id", .vStr "abc")]])]

/-- LSPU-shaped coordinator state with one account (id 1), one
sub-account carrying account number "100", and one counter with UUID
"u1" — the fixture for device resolution. -/
def stW : CoordState :=
  ⟨[(.kS CONF_INFO, .vDict [(.kI 1, .vList [.vDict
      [(.kS CONF_ACCOUNT, .vStr "100"),
       (.kS ATTR_ACCOUNT_ID, .vInt 55),
       (.kS ATTR_COUNTERS, .vList [.vDict [(.kS ATTR_UUID, .vStr "u1")]])]])]),
    (.kS ATTR_IS_ELS, .vBool false)], false, false, none⟩

/-- Identifier set of the platform device matching `stW`'s counter. -/
def devW : List (String × String) :=
  [(DOMAIN_NAME, make_device_id (.vStr "100") (.vStr "u1"))]

/-! Helper lemmas about dictionaries. -/

theorem lookupD_dictSet_same (kvs : List (Key × Value)) (k : Key) (v : Value) :
    lookupD (dictSet kvs k v) k = v := by
  induction kvs with
  | nil => simp [dictSet, lookupD, dictLookup]
  | cons kv rest ih =>
      obtain ⟨k1, v1⟩ := kv
      by_cases h : k1 = k
      · simp [dictSet, h, lookupD, dictLookup]
      · simp only [dictSet, if_neg h]
        simpa [lookupD, dictLookup, h] using ih

theorem lookupD_dictSet_other (kvs : List (Key × Value)) (k k2 : Key) (v : Value)
    (h : k ≠ k2) : lookupD (dictSet kvs k v) k2 = lookupD kvs k2 := by
  induction kvs with
  | nil => simp [dictSet, lookupD, dictLookup, h]
  | cons kv rest ih =>
      obtain ⟨k1, v1⟩ := kv
      by_cases h1 : k1 = k
      · subst h1
        simp [dictSet, lookupD, dictLookup, h]
      · simp only [dictSet, if_neg h1]
        by_cases h2 : k1 = k2
        · simp [lookupD, dictLookup, h2]
        · simpa [lookupD, dictLookup, h2] using ih

/-- C4 (counterexample): on a payload where `lspu` is present (non-null)
but empty, the code does NOT let the first non-null value win — the
`or`-chain falls through the falsy `lspu` to `lspuGroup` — refuting the
claim's first-non-null resolution order. -/
theorem c4_first_nonnull_refuted :
    get_lspu_list c4Raw = [.vDict []] ∧
    get_lspu_list_first_nonnull c4Raw = [] ∧
    get_lspu_list c4Raw ≠ get_lspu_list_first_nonnull c4Raw := by
  refine ⟨rfl, rfl, ?_⟩
  intro h
  exact List.noConfusion h

/-- C4 (amended): the LSPU account list is resolved by inspecting
`lspu`, `lspuGroup`, `lspuInfoGroup` in that fixed order with the first
TRUTHY value winning (a present-but-falsy value falls through); a
resolved value that is not a list is treated as an empty list; and
non-mapping input always yields the empty result, with no exception
raised (the embedding is a total function). -/
theorem get_lspu_list_first_truthy_correct :
    (∀ v : Value, get_lspu_list v = get_lspu_list_first_truthy v) ∧
    get_lspu_list (.vStr "notadict") = [] ∧
    get_lspu_list (.vDict [(.kS "lspu", .vInt 5)]) = [] := by
  refine ⟨?_, rfl, rfl⟩
  intro v
  cases v with
  | vDict kvs =>
      simp only [get_lspu_list, get_lspu_list_first_truthy]
      by_cases h1 : truthy (lookupD kvs (.kS "lspu")) <;>
        by_cases h2 : truthy (lookupD kvs (.kS "lspuGroup")) <;>
          by_cases h3 : truthy (lookupD kvs (.kS "lspuInfoGroup")) <;>
            simp [pyOr, h1, h2, h3]
  | vNone => rfl
  | vBool b => rfl
  | vInt n => rfl
  | vFloat q => rfl
  | vStr s => rfl
  | vList xs => rfl
  | vTime t => rfl

/-- C5: the balance extractor never raises (it is a total function into
`Option`): None on non-mapping input, on an empty dict, and on a
match-free scan; the first balance-bearing element is returned
immediately as a float, `services[0].balance` preferred over the
element's own `balance` within one element; and a non-numeric balance
is a hard stop making the whole call return None, even when a later
element carries a good balance. In particular the four concrete cases
of the claim hold. -/
theorem extract_balance_cases :
    (∀ v : Value, v.isDict = false → extract_balance_from_info v = none) ∧
    extract_balance_from_info (.vDict []) = none ∧
    extract_balance_from_info
      (.vDict [(.kS "a", .vList [.vDict [(.kS "services",
        .vList [.vDict [(.kS "balance", .vFloat 12.5)]])]])]) = some 12.5 ∧
    extract_balance_from_info
      (.vDict [(.kS "a", .vList [.vDict [(.kS "balance", .vInt 7)]])]) = some 7 ∧
    extract_balance_from_info
      (.vDict [(.kS "a", .vList [.vDict [(.kS "balance", .vStr "bad")]])]) = none ∧
    extract_balance_from_info
      (.vDict [(.kS "a", .vList [.vDict [(.kS "balance", .vStr "bad")],
        .vDict [(.kS "balance", .vInt 7)]])]) = none ∧
    extract_balance_from_info
      (.vDict [(.kS "a", .vList [.vDict [(.kS "services",
        .vList [.vDict [(.kS "balance", .vInt 1)]]), (.kS "balance", .vInt 2)]])])
      = some 1 ∧
    extract_balance_from_info
      (.vDict [(.kS "a", .vList [.vDict [(.kS "x", .vInt 1)]])]) = none := by
  refine ⟨?_, rfl, rfl, ?_, rfl, rfl, ?_, rfl⟩
  · intro v h
    cases v <;> simp_all [Value.isDict, extract_balance_from_info]
  · decide
  · decide

/-- C5 witness: the non-mapping clause applied at a concrete input. -/
theorem extract_balance_cases_nonmapping :
    extract_balance_from_info (.vInt 3) = none :=
  extract_balance_cases.1 (.vInt 3) rfl

/-! Helper lemmas about the poll trace. -/

theorem trace_fetched (st : CoordState) (env : Env) :
    (async_update_data st env).fetched = fetch_condition st := by
  unfold async_update_data
  cases h : poll_body st env with
  | ok val => obtain ⟨d, p⟩ := val; rfl
  | error e => rfl

theorem trace_force (st : CoordState) (env : Env) :
    (async_update_data st env).newState.forceNextUpdate = false := by
  unfold async_update_data
  cases h : poll_body st env with
  | ok val => obtain ⟨d, p⟩ := val; rfl
  | error e => rfl

theorem trace_interval (st : CoordState) (env : Env) :
    (async_update_data st env).newState.updateInterval = nextInterval st env := by
  unfold async_update_data
  cases h : poll_body st env with
  | ok val => obtain ⟨d, p⟩ := val; rfl
  | error e => rfl

theorem isNone_of_truthy {v : Value} (h : truthy v = true) : isNone v = false := by
  cases v <;> simp_all [truthy, isNone]

theorem lookupD_balance_step (nd : List (Key × Value)) (k : Key)
    (h : Key.kS ATTR_BALANCE ≠ k) : lookupD (balance_step nd) k = lookupD nd k := by
  unfold balance_step
  cases hx : extract_balance_from_info (lookupD nd (.kS CONF_INFO)) with
  | some q => exact lookupD_dictSet_other _ _ _ _ h
  | none => rfl

/-- C1: per poll, the cached raw accounts are reused unless absent/empty
or the one-shot force flag is set (under the coordinator's own data
invariant: a stored accounts payload is absent exactly when it is
None, and is truthy otherwise); when no fetch is needed the branch work
runs on the cached payload; and a fresh fetch yielding falsy data makes
the poll return, successfully, a result holding only the update
timestamp. -/
theorem c1_cache_policy (st : CoordState) (env : Env)
    (hInv : lookupD st.data (.kS CONF_ACCOUNTS) = .vNone ∨
      truthy (lookupD st.data (.kS CONF_ACCOUNTS)) = true) :
    ((async_update_data st env).fetched
        = (!truthy (lookupD st.data (.kS CONF_ACCOUNTS)) || st.forceNextUpdate)) ∧
    (fetch_condition st = false →
      poll_body st env = poll_rest env (lookupD st.data (.kS CONF_ACCOUNTS))) ∧
    (∀ v : Value, fetch_condition st = true → env.getAccountsR = .ok v →
      truthy v = false →
      (async_update_data st env).outcome = .ok (newDataBase env.nowT) ∧
      (async_update_data st env).path = .earlyP) := by
  refine ⟨?_, ?_, ?_⟩
  · rw [trace_fetched]
    unfold fetch_condition
    rcases hInv with h | h
    · rw [h]; rfl
    · rw [isNone_of_truthy h, h]; rfl
  · intro hfc
    have hc : (isNone (lookupD st.data (.kS CONF_ACCOUNTS))
        || st.forceNextUpdate) = false := hfc
    simp [poll_body, hc]
  · intro v hfc hacc hv
    have hc : (isNone (lookupD st.data (.kS CONF_ACCOUNTS))
        || st.forceNextUpdate) = true := hfc
    have hbody : poll_body st env = .ok (newDataBase env.nowT, .earlyP) := by
      simp [poll_body, hc, hacc, hv]
    constructor <;> simp [async_update_data, hbody]

/-- C1 witness: the initial state with an empty-fetch environment. -/
theorem c1_cache_policy_witness :
    (async_update_data st0 envOk).outcome = .ok (newDataBase envOk.nowT) ∧
    (async_update_data st0 envOk).path = .earlyP :=
  (c1_cache_policy st0 envOk (Or.inl rfl)).2.2 .vNone rfl rfl rfl

/-- C2: an authentication-category remote error raised anywhere during
the poll body maps to the distinct auth-failed condition, and every
other exception maps to the generic update-failed condition carrying
the original error text; and stage errors — the get-accounts call when
a fetch is due, the ELS detail fetch on the ELS branch, the LSPU detail
fetch on the LSPU branch, and the per-id remote info calls inside the
fetchers — all propagate out of the poll body. -/
theorem c2_error_mapping (st : CoordState) (env : Env) :
    (poll_body st env = .error .authError →
      (async_update_data st env).outcome = .authFailed "Incorrect Login or Password") ∧
    (∀ m, poll_body st env = .error (.generic m) →
      (async_update_data st env).outcome
        = .updateFailed ("Error communicating with API: " ++ m)) ∧
    (∀ e, fetch_condition st = true → env.getAccountsR = .error e →
      poll_body st env = .error e) ∧
    (∀ e ai, truthy (els_group_of ai) = true →
      retrieve_els_accounts_info env ai = .error e → poll_rest env ai = .error e) ∧
    (∀ e ai, truthy (els_group_of ai) = false → (get_lspu_list ai).isEmpty = false →
      retrieve_lspu_accounts_info env ai = .error e → poll_rest env ai = .error e) ∧
    (∀ e item rest acc elsField idv n, mGetD item ATTR_ELS (.vDict []) = .ok elsField →
      mGet elsField "id" = .ok idv → truthy idv = true → pyInt idv = .ok n →
      env.getElsInfoR n = .error e → elsLoop env (item :: rest) acc = .error e) ∧
    (∀ e item rest acc idv n, mGet item "id" = .ok idv →
      truthy idv = true → pyInt idv = .ok n →
      env.getLspuInfoR n = .error e → lspuLoop env (item :: rest) acc = .error e) := by
  refine ⟨?_, ?_, ?_, ?_, ?_, ?_, ?_⟩
  · intro h; simp [async_update_data, h, mapExc]
  · intro m h; simp [async_update_data, h, mapExc]
  · intro e hfc hacc
    have hc : (isNone (lookupD st.data (.kS CONF_ACCOUNTS))
        || st.forceNextUpdate) = true := hfc
    simp [poll_body, hc, hacc]
  · intro e ai hg hr; simp [poll_rest, hg, hr]
  · intro e ai hg hl hr; simp [poll_rest, hg, hl, hr]
  · intro e item rest acc elsField idv n h1 h2 h3 h4 h5
    simp [elsLoop, h1, h2, h3, h4, h5]
  · intro e item rest acc idv n h1 h2 h3 h4
    simp [lspuLoop, h1, h2, h3, h4]

/-- C2 witness: an auth error from the get-accounts stage on the
initial state maps to the auth-failed outcome. -/
theorem c2_error_mapping_witness :
    (async_update_data st0 envAuthErr).outcome
      = .authFailed "Incorrect Login or Password" :=
  (c2_error_mapping st0 envAuthErr).1 rfl

/-- C3: whenever the raw accounts payload has a truthy `elsGroup`, the
poll's branch work is exactly the ELS branch — details fetched via the
ELS detail fetcher — regardless of any LSPU keys also present, and the
ELS branch result carries `is_els = True` and the fetched info. -/
theorem c3_els_priority :
    (∀ (env : Env) (ai : Value), truthy (els_group_of ai) = true →
      poll_rest env ai =
        match retrieve_els_accounts_info env ai with
        | .ok info => .ok (els_branch_data env.nowT ai info, .elsP)
        | .error e => .error e) ∧
    (∀ (t : Nat) (ai info : Value),
      lookupD (els_branch_data t ai info) (.kS ATTR_IS_ELS) = .vBool true ∧
      lookupD (els_branch_data t ai info) (.kS CONF_INFO) = info) := by
  constructor
  · intro env ai h
    simp only [poll_rest, h, if_true]
    cases hr : retrieve_els_accounts_info env ai <;> rfl
  · intro t ai info
    unfold els_branch_data
    constructor
    · rw [lookupD_balance_step _ _ (by decide),
        lookupD_dictSet_other _ _ _ _ (by decide)]
      exact lookupD_dictSet_same _ _ _
    · rw [lookupD_balance_step _ _ (by decide)]
      exact lookupD_dictSet_same _ _ _

/-- C3 witness: a payload carrying both a truthy `elsGroup` and a
truthy `lspu` list still takes the ELS branch. -/
theorem c3_els_priority_witness :
    poll_rest envOk
        (.vDict [(.kS "elsGroup", .vList [.vDict []]),
          (.kS "lspu", .vList [.vDict []])]) =
      match retrieve_els_accounts_info envOk
          (.vDict [(.kS "elsGroup", .vList [.vDict []]),
            (.kS "lspu", .vList [.vDict []])]) with
      | .ok info =>
          .ok (els_branch_data envOk.nowT
            (.vDict [(.kS "elsGroup", .vList [.vDict []]),
              (.kS "lspu", .vList [.vDict []])]) info, .elsP)
      | .error e => .error e :=
  c3_els_priority.1 envOk _ rfl

/-- C6: the forced-refresh flag is one-shot — when it is set the poll
issues the fresh get-accounts fetch, and after every poll, whatever the
outcome path, the flag is false again. -/
theorem c6_force_oneshot (st : CoordState) (env : Env) :
    (async_update_data st env).newState.forceNextUpdate = false ∧
    (st.forceNextUpdate = true → (async_update_data st env).fetched = true) := by
  refine ⟨trace_force st env, ?_⟩
  intro h
  rw [trace_fetched]
  simp [fetch_condition, h]

/-- C6 witness: a poll with the flag set fetches, and ends unset. -/
theorem c6_force_oneshot_witness :
    (async_update_data st0auto envOk).newState.forceNextUpdate = false ∧
    (async_update_data st0auto envOk).fetched = true :=
  ⟨(c6_force_oneshot st0auto envOk).1, (c6_force_oneshot st0auto envOk).2 rfl⟩

/-- C8: after every poll, when auto-update is enabled the next poll
interval is the randomized time-of-day with the hour drawn from the
half-open configured window and minute and second from [0, 60); when
auto-update is disabled the interval is none. -/
theorem c8_update_interval (st : CoordState) (env : Env)
    (hw : env.hourBegin < env.hourEnd) :
    (st.autoUpdate = true →
      ∃ h m s, (async_update_data st env).newState.updateInterval
          = some (get_update_interval h m s) ∧
        env.hourBegin ≤ h ∧ h < env.hourEnd ∧ m < 60 ∧ s < 60) ∧
    (st.autoUpdate = false →
      (async_update_data st env).newState.updateInterval = none) := by
  constructor
  · intro ha
    refine ⟨randrange env.hourBegin env.hourEnd env.g1,
      randrange 0 60 env.g2, randrange 0 60 env.g3, ?_, ?_, ?_, ?_, ?_⟩
    · rw [trace_interval]; simp [nextInterval, ha]
    · exact Nat.le_add_right _ _
    · have hm : env.g1 % (env.hourEnd - env.hourBegin) < env.hourEnd - env.hourBegin :=
        Nat.mod_lt _ (Nat.sub_pos_of_lt hw)
      calc env.hourBegin + env.g1 % (env.hourEnd - env.hourBegin)
          < env.hourBegin + (env.hourEnd - env.hourBegin) := Nat.add_lt_add_left hm _
        _ = env.hourEnd := Nat.add_sub_cancel' (Nat.le_of_lt hw)
    · simpa [randrange] using Nat.mod_lt env.g2 (show 0 < 60 - 0 by decide)
    · simpa [randrange] using Nat.mod_lt env.g3 (show 0 < 60 - 0 by decide)
  · intro ha
    rw [trace_interval]
    simp [nextInterval, ha]

/-- C8 witness: the interval at a concrete auto-update poll. -/
theorem c8_update_interval_witness :
    ∃ h m s, (async_update_data st0auto envOk).newState.updateInterval
        = some (get_update_interval h m s) ∧
      envOk.hourBegin ≤ h ∧ h < envOk.hourEnd ∧ m < 60 ∧ s < 60 :=
  (c8_update_interval st0auto envOk (by decide)).1 rfl

/-- C7 (counterexample): in both detail fetchers, an item whose id is
truthy but not convertible to integer is NOT skipped — `int(...)`
raises and the whole batch aborts with an error, refuting "never
fatal". -/
theorem c7_bad_id_is_fatal :
    retrieve_els_accounts_info envOk c7RawBadId
        = .error (.generic "ValueError: invalid literal for int") ∧
    retrieve_lspu_accounts_info envOk c7RawBadIdLspu
        = .error (.generic "ValueError: invalid literal for int") :=
  ⟨rfl, rfl⟩

/-- C7 (amended): in both detail fetchers an absent/falsy account id is
skipped (logged) without aborting the batch, and an item whose remote
detail call returns a falsy result is likewise skipped while the batch
continues — the remaining items' entries are still produced by the
continuing loop; the LSPU fetcher wraps a non-list single detail result
into a one-element list; but in either fetcher a truthy id that is not
convertible to integer raises and aborts the whole batch. -/
theorem c7_fetcher_item_isolation (env : Env) :
    (∀ (item : Value) rest acc elsField idv,
      mGetD item ATTR_ELS (.vDict []) = .ok elsField →
      mGet elsField "id" = .ok idv → truthy idv = false →
      elsLoop env (item :: rest) acc = elsLoop env rest acc) ∧
    (∀ (item : Value) rest acc elsField idv n r,
      mGetD item ATTR_ELS (.vDict []) = .ok elsField →
      mGet elsField "id" = .ok idv → truthy idv = true → pyInt idv = .ok n →
      env.getElsInfoR n = .ok r → truthy r = false →
      elsLoop env (item :: rest) acc = elsLoop env rest acc) ∧
    (∀ (item : Value) rest acc idv,
      mGet item "id" = .ok idv → truthy idv = false →
      lspuLoop env (item :: rest) acc = lspuLoop env rest acc) ∧
    (∀ (item : Value) rest acc idv n r,
      mGet item "id" = .ok idv → truthy idv = true → pyInt idv = .ok n →
      env.getLspuInfoR n = .ok r → truthy r = false →
      lspuLoop env (item :: rest) acc = lspuLoop env rest acc) ∧
    (∀ (item : Value) rest acc idv n r,
      mGet item "id" = .ok idv → truthy idv = true → pyInt idv = .ok n →
      env.getLspuInfoR n = .ok r → truthy r = true → r.isList = false →
      lspuLoop env (item :: rest) acc
        = lspuLoop env rest (dictSet acc (.kI n) (.vList [r]))) ∧
    (∀ (item : Value) rest acc elsField idv k,
      mGetD item ATTR_ELS (.vDict []) = .ok elsField →
      mGet elsField "id" = .ok idv → truthy idv = true → pyInt idv = .error k →
      elsLoop env (item :: rest) acc = .error k) ∧
    (∀ (item : Value) rest acc idv k,
      mGet item "id" = .ok idv → truthy idv = true → pyInt idv = .error k →
      lspuLoop env (item :: rest) acc = .error k) := by
  refine ⟨?_, ?_, ?_, ?_, ?_, ?_, ?_⟩
  · intro item rest acc elsField idv h1 h2 h3
    simp [elsLoop, h1, h2, h3]
  · intro item rest acc elsField idv n r h1 h2 h3 h4 h5 h6
    simp [elsLoop, h1, h2, h3, h4, h5, h6]
  · intro item rest acc idv h1 h2
    simp [lspuLoop, h1, h2]
  · intro item rest acc idv n r h1 h2 h3 h4 h5
    simp [lspuLoop, h1, h2, h3, h4, h5]
  · intro item rest acc idv n r h1 h2 h3 h4 h5 h6
    simp [lspuLoop, h1, h2, h3, h4, h5, h6]
  · intro item rest acc elsField idv k h1 h2 h3 h4
    simp [elsLoop, h1, h2, h3, h4]
  · intro item rest acc idv k h1 h2 h3
    simp [lspuLoop, h1, h2, h3]

/-- C7 witness: an ELS item with no id is skipped and the batch goes
on (here: to the empty remainder). -/
theorem c7_fetcher_item_isolation_witness :
    elsLoop envOk [c7ItemNoId] [] = elsLoop envOk [] [] :=
  (c7_fetcher_item_isolation envOk).1 c7ItemNoId [] [] (.vDict []) .vNone rfl rfl rfl

/-- C9: a device whose resolution does not produce all three components
makes `async_send_readings` fail hard (the assertion raises, never a
silent no-op); and every successful submission uses exactly the
sub-account's own linked account id, the counter UUID at the resolved
triple, the given value, and the account id as ELS group id exactly
when the shape is ELS. -/
theorem c9_send_readings (st : CoordState)
    (dev : Option (List (String × String))) (value : Rat) :
    (find_account_by_device_id st dev = .ok none →
      async_send_readings st dev value = .error (.generic "AssertionError")) ∧
    (∀ call, async_send_readings st dev value = .ok call →
      ∃ a l c, find_account_by_device_id st dev = .ok (some (a, l, c)) ∧
        linked_account_id st a l = .ok call.lspuId ∧
        counter_uuid_item st a l c = .ok call.equipmentUuid ∧
        call.value = value ∧
        call.elsId = (if truthy (is_els st) then some a else none)) := by
  constructor
  · intro h
    unfold async_send_readings
    rw [h]
  · intro call h
    unfold async_send_readings at h
    cases hf : find_account_by_device_id st dev with
    | error e => rw [hf] at h; exact absurd h (by simp)
    | ok r =>
      rw [hf] at h
      cases r with
      | none => exact absurd h (by simp)
      | some t =>
        obtain ⟨a, l, c⟩ := t
        refine ⟨a, l, c, rfl, ?_⟩
        dsimp only [] at h
        cases hla : get_lspu_accounts st a with
        | error e => rw [hla] at h; exact absurd h (by simp)
        | ok lspu_accounts =>
          rw [hla] at h
          dsimp only [] at h
          by_cases h1 : truthy lspu_accounts = true
          · rw [if_pos h1] at h
            cases hacc : getItemV lspu_accounts (.vInt (l : Int)) with
            | error e => rw [hacc] at h; exact absurd h (by simp)
            | ok lspu_account =>
              rw [hacc] at h
              dsimp only [] at h
              by_cases h2 : truthy lspu_account = true
              · rw [if_pos h2] at h
                cases hid : getItemV lspu_account (.vStr ATTR_ACCOUNT_ID) with
                | error e => rw [hid] at h; exact absurd h (by simp)
                | ok lspu_id =>
                  rw [hid] at h
                  dsimp only [] at h
                  cases hcs : get_counters st a l with
                  | error e => rw [hcs] at h; exact absurd h (by simp)
                  | ok counters =>
                    rw [hcs] at h
                    dsimp only [] at h
                    by_cases h3 : truthy counters = true
                    · rw [if_pos h3] at h
                      cases hcv : getItemV counters (.vInt (c : Int)) with
                      | error e => rw [hcv] at h; exact absurd h (by simp)
                      | ok cv =>
                        rw [hcv] at h
                        dsimp only [] at h
                        cases huu : getItemV cv (.vStr ATTR_UUID) with
                        | error e => rw [huu] at h; exact absurd h (by simp)
                        | ok uuid =>
                          rw [huu] at h
                          dsimp only [] at h
                          by_cases h4 : truthy uuid = true
                          · rw [if_pos h4] at h
                            have hcall :
                                (⟨lspu_id, uuid, value,
                                  if truthy (is_els st) = true then some a
                                  else none⟩ : SubmitCall) = call := by
                              simpa using h
                            subst hcall
                            refine ⟨?_, ?_, rfl, rfl⟩
                            · simp [linked_account_id, hla, hacc, hid]
                            · simp [counter_uuid_item, hcs, hcv, huu]
                          · rw [if_neg h4] at h; exact absurd h (by simp)
                    · rw [if_neg h3] at h; exact absurd h (by simp)
              · rw [if_neg h2] at h; exact absurd h (by simp)
          · rw [if_neg h1] at h; exact absurd h (by simp)

/-- C9 witness: an unresolvable device (empty normalized info) makes
the submission fail hard. -/
theorem c9_send_readings_witness :
    async_send_readings st0 (some [("a", "b")]) 1
      = .error (.generic "AssertionError") :=
  (c9_send_readings st0 (some [("a", "b")]) 1).1 rfl

/-! Soundness of the device-lookup scan: a hit can only come from the
match condition of the innermost loop. -/

theorem find_inner_sound (st : CoordState) (dev : List (String × String))
    (a : Value) (l : Nat) :
    ∀ (cs : List Nat) (t : Value × Nat × Nat),
    find_inner st dev a l cs = .ok (some t) →
    ∃ c, t = (a, l, c) ∧ ∃ num uuid,
      get_account_number st a l = .ok num ∧
      counter_uuid_at st a l c = .ok uuid ∧
      identSetEq dev (DOMAIN_NAME, make_device_id num uuid) = true := by
  intro cs
  induction cs with
  | nil => intro t h; exact absurd h (by simp [find_inner])
  | cons c rest ih =>
    intro t h
    unfold find_inner at h
    cases hn : get_account_number st a l with
    | error e => rw [hn] at h; exact absurd h (by simp)
    | ok num =>
      rw [hn] at h
      dsimp only [] at h
      cases hu : counter_uuid_at st a l c with
      | error e => rw [hu] at h; exact absurd h (by simp)
      | ok uuid =>
        rw [hu] at h
        dsimp only [] at h
        by_cases ht : truthy uuid = true
        · rw [if_pos ht] at h
          by_cases hs : identSetEq dev (DOMAIN_NAME, make_device_id num uuid) = true
          · rw [if_pos hs] at h
            have heq : (a, l, c) = t := by simpa using h
            exact ⟨c, heq.symm, num, uuid, rfl, hu, hs⟩
          · rw [if_neg hs] at h
            rw [← hn]
            exact ih t h
        · rw [if_neg ht] at h; exact absurd h (by simp)

theorem find_mid_sound (st : CoordState) (dev : List (String × String)) (a : Value) :
    ∀ (ls : List Nat) (t : Value × Nat × Nat),
    find_mid st dev a ls = .ok (some t) →
    ∃ l cs, find_inner st dev a l cs = .ok (some t) := by
  intro ls
  induction ls with
  | nil => intro t h; exact absurd h (by simp [find_mid])
  | cons l rest ih =>
    intro t h
    unfold find_mid at h
    cases hc : get_counters st a l with
    | error e => rw [hc] at h; exact absurd h (by simp)
    | ok counters =>
      rw [hc] at h
      dsimp only [] at h
      cases hl : pyLen counters with
      | error e => rw [hl] at h; exact absurd h (by simp)
      | ok n =>
        rw [hl] at h
        dsimp only [] at h
        cases hi : find_inner st dev a l (List.range n) with
        | error e => rw [hi] at h; exact absurd h (by simp)
        | ok r =>
          rw [hi] at h
          cases r with
          | some t2 =>
              have heq : t2 = t := by simpa using h
              exact ⟨l, List.range n, heq ▸ hi⟩
          | none => exact ih t h

theorem find_outer_sound (st : CoordState) (dev : List (String × String)) :
    ∀ (ks : List Value) (t : Value × Nat × Nat),
    find_outer st dev ks = .ok (some t) →
    ∃ a ls, find_mid st dev a ls = .ok (some t) := by
  intro ks
  induction ks with
  | nil => intro t h; exact absurd h (by simp [find_outer])
  | cons a rest ih =>
    intro t h
    unfold find_outer at h
    cases ha : get_lspu_accounts st a with
    | error e => rw [ha] at h; exact absurd h (by simp)
    | ok accs =>
      rw [ha] at h
      dsimp only [] at h
      cases hl : pyLen accs with
      | error e => rw [hl] at h; exact absurd h (by simp)
      | ok n =>
        rw [hl] at h
        dsimp only [] at h
        cases hm : find_mid st dev a (List.range n) with
        | error e => rw [hm] at h; exact absurd h (by simp)
        | ok r =>
          rw [hm] at h
          cases r with
          | some t2 =>
              have heq : t2 = t := by simpa using h
              exact ⟨a, List.range n, heq ▸ hm⟩
          | none => exact ih t h

/-- C10: whenever the device-id lookup resolves a device to the triple
(a, l, c), re-deriving the stable identifier from
`get_account_number(a, l)` together with the counter UUID stored at
(a, l, c) reproduces exactly the identifier set recorded for the
device that was looked up. -/
theorem c10_roundtrip (st : CoordState) (dev : List (String × String))
    (a : Value) (l c : Nat)
    (h : find_account_by_device_id st (some dev) = .ok (some (a, l, c))) :
    ∃ num uuid, get_account_number st a l = .ok num ∧
      counter_uuid_at st a l c = .ok uuid ∧
      identSetEq dev (DOMAIN_NAME, make_device_id num uuid) = true := by
  unfold find_account_by_device_id at h
  cases hi : pyIter (get_accounts st) with
  | error e => rw [hi] at h; exact absurd h (by simp)
  | ok ks =>
    rw [hi] at h
    dsimp only [] at h
    obtain ⟨a2, ls, hmid⟩ := find_outer_sound st dev ks _ h
    obtain ⟨l2, cs, hinner⟩ := find_mid_sound st dev a2 ls _ hmid
    obtain ⟨c2, ht, num, uuid, hnum, huuid, hset⟩ :=
      find_inner_sound st dev a2 l2 cs _ hinner
    obtain ⟨ha, hl, hc⟩ : a = a2 ∧ l = l2 ∧ c = c2 := by
      have := ht
      simp only [Prod.mk.injEq] at this
      exact ⟨this.1, this.2.1, this.2.2⟩
    subst ha; subst hl; subst hc
    exact ⟨num, uuid, hnum, huuid, hset⟩

/-- C10 witness: the LSPU fixture resolves and round-trips. -/
theorem c10_roundtrip_witness :
    ∃ num uuid, get_account_number stW (.vInt 1) 0 = .ok num ∧
      counter_uuid_at stW (.vInt 1) 0 0 = .ok uuid ∧
      identSetEq devW (DOMAIN_NAME, make_device_id num uuid) = true :=
  c10_roundtrip stW devW (.vInt 1) 0 0 rfl

end MyGas
